import Mathlib

/-!
Shallow embedding of the `python-zmanim` sources under verification:

* `astronomical_calendar.py` — the `AstronomicalCalendar` class: sunrise /
  sunset / temporal-hour / sun-transit orchestration on top of a pluggable
  solar-position solver and an external location provider.
* `zmanim/hebrew_calendar/hebrew_date_formatter.py` — the
  `HebrewDateFormatter` class: Hebrew number formatting and the holiday
  name tables.

Modelling conventions:
* Python floats carrying fractional UTC hours, offsets and timestamps are
  modelled as `ℚ` (all values relevant to the claims are exact dyadic
  rationals, so rational arithmetic agrees with IEEE float arithmetic on
  them).
* A Python `date` is modelled by its proleptic Gregorian ordinal
  (`date.toordinal()`), an integer number of days; `date + timedelta(days=k)`
  is integer addition.
* A timezone-aware Python `datetime` is modelled by its absolute instant,
  in `ℚ` seconds since the epoch aligned with day ordinals (instant of
  ordinal `d` at midnight UTC is `d * 86400`).  `datetime.astimezone`
  changes only the displayed zone, never the instant, and aware-datetime
  equality and subtraction are instant equality and instant subtraction,
  so all claims are stated on instants.
* A Python value that may be `None` is an `Option`.
-/

/-- Milliseconds in one standard hour.
Modelled from the spec: `HOUR_MILLIS` is inherited from the `MathHelper`
base class, whose source file is not in the repository snapshot; the spec
defines it as "the constant count of milliseconds in one standard hour". -/
def HOUR_MILLIS : ℚ := 3600000

/-- `AstronomicalCalendar.GEOMETRIC_ZENITH` (degrees). -/
def GEOMETRIC_ZENITH : ℚ := 90

/-- The external location provider (`GeoLocation`), restricted to the
fields and accessors `astronomical_calendar.py` consumes: the two offsets
(milliseconds), the antimeridian adjustment (days), and the elevation
(metres; only ever read by the solver).  The civil timezone is not carried
because `astimezone` does not change the instant a datetime denotes. -/
structure GeoLocation where
  local_mean_time_offset : ℚ
  standard_time_offset : ℚ
  antimeridian_adjustment : ℤ
  elevation : ℚ
deriving DecidableEq

/-- `g` with its elevation replaced by `e` (all other fields unchanged). -/
def GeoLocation.with_elevation (g : GeoLocation) (e : ℚ) : GeoLocation :=
  ⟨g.local_mean_time_offset, g.standard_time_offset, g.antimeridian_adjustment, e⟩

/-- The external solar-position solver (`AstronomicalCalculations`
interface): given a date (ordinal), location, zenith angle and the
elevation-adjustment flag, each operation returns the fractional UTC hour
of the event, or `none` when the event does not occur. -/
structure AstronomicalCalculations where
  utc_sunrise : ℤ → GeoLocation → ℚ → Bool → Option ℚ
  utc_sunset : ℤ → GeoLocation → ℚ → Bool → Option ℚ

/-- `AstronomicalCalendar`: binds one location, one date and one solver. -/
structure AstronomicalCalendar where
  geo_location : GeoLocation
  date : ℤ
  astronomical_calculator : AstronomicalCalculations

/-- The mode tag of `__date_time_from_time_of_day` (the Python code uses
the strings `'sunrise'` and `'sunset'`). -/
inductive SunMode
  | sunrise
  | sunset
deriving DecidableEq

/-- Python `divmod(a, b)` on floats: `(⌊a / b⌋, a - b * ⌊a / b⌋)`. -/
def pyDivmod (a b : ℚ) : ℤ × ℚ := (⌊a / b⌋, a - b * ⌊a / b⌋)

/-- `AstronomicalCalendar.__adjusted_date`:
`self.date + timedelta(days=self.geo_location.antimeridian_adjustment())`. -/
def AstronomicalCalendar.adjusted_date (c : AstronomicalCalendar) : ℤ :=
  c.date + c.geo_location.antimeridian_adjustment

/-- `AstronomicalCalendar.__convert_date_time_for_zone`:
`utc_time.astimezone(self.geo_location.time_zone)` — on instants this is
the identity (astimezone re-labels the zone without moving the instant). -/
def AstronomicalCalendar.convert_date_time_for_zone
    (_c : AstronomicalCalendar) (utc_time : ℚ) : ℚ :=
  utc_time

/-- The `h + local_offset` quantity of `__date_time_from_time_of_day`,
line 90: `(local_mean_time_offset() + standard_time_offset()) / HOUR_MILLIS`. -/
def AstronomicalCalendar.local_offset (c : AstronomicalCalendar) : ℚ :=
  (c.geo_location.local_mean_time_offset + c.geo_location.standard_time_offset) / HOUR_MILLIS

/-- The time of day (seconds) reconstructed by `__date_time_from_time_of_day`
lines 82-84 from a fractional hour `t`:
`hours, remainder = divmod(t * 3600, 3600)`;
`minutes, remainder = divmod(remainder, 60)`;
`seconds, microseconds = divmod(remainder * 10**6, 10**6)`;
each component then truncated by `int(...)` (all components are
non-negative for `t ≥ 0`, so `int` is `⌊·⌋`). -/
def reconstructed_time_of_day (t : ℚ) : ℚ :=
  let hm := pyDivmod (t * 3600) 3600
  let ms := pyDivmod hm.2 60
  let su := pyDivmod (ms.2 * 1000000) 1000000
  (hm.1 : ℚ) * 3600 + (ms.1 : ℚ) * 60 + (su.1 : ℚ) + (⌊su.2⌋ : ℚ) / 1000000

/-- The instant (seconds) of the UTC datetime built on the adjusted date
with the reconstructed time of day, before any day-boundary correction
(line 87 of the source). -/
def AstronomicalCalendar.base_utc_instant (c : AstronomicalCalendar) (t : ℚ) : ℚ :=
  (c.adjusted_date : ℚ) * 86400 + reconstructed_time_of_day t

/-- `AstronomicalCalendar.__date_time_from_time_of_day`.  Returns the
instant of the zone-converted datetime, or `none` when `time_of_day` is
absent.  The day-boundary test uses `hours`, the `divmod`-produced integer
hour part of `time_of_day` (source line 91/93), added to the local offset
in hours. -/
def AstronomicalCalendar.date_time_from_time_of_day (c : AstronomicalCalendar)
    (time_of_day : Option ℚ) (mode : SunMode) : Option ℚ :=
  match time_of_day with
  | none => none
  | some t =>
    let hours : ℤ := (pyDivmod (t * 3600) 3600).1
    let utc_time : ℚ := c.base_utc_instant t
    let utc_time' : ℚ :=
      if (hours : ℚ) + c.local_offset > 18 ∧ mode = SunMode.sunrise then
        utc_time - 86400
      else if (hours : ℚ) + c.local_offset < 6 ∧ mode = SunMode.sunset then
        utc_time + 86400
      else utc_time
    some (c.convert_date_time_for_zone utc_time')

/-- `AstronomicalCalendar.utc_sunrise`. -/
def AstronomicalCalendar.utc_sunrise (c : AstronomicalCalendar) (zenith : ℚ) : Option ℚ :=
  c.astronomical_calculator.utc_sunrise c.adjusted_date c.geo_location zenith true

/-- `AstronomicalCalendar.utc_sea_level_sunrise`. -/
def AstronomicalCalendar.utc_sea_level_sunrise (c : AstronomicalCalendar) (zenith : ℚ) : Option ℚ :=
  c.astronomical_calculator.utc_sunrise c.adjusted_date c.geo_location zenith false

/-- `AstronomicalCalendar.utc_sunset`. -/
def AstronomicalCalendar.utc_sunset (c : AstronomicalCalendar) (zenith : ℚ) : Option ℚ :=
  c.astronomical_calculator.utc_sunset c.adjusted_date c.geo_location zenith true

/-- `AstronomicalCalendar.utc_sea_level_sunset`. -/
def AstronomicalCalendar.utc_sea_level_sunset (c : AstronomicalCalendar) (zenith : ℚ) : Option ℚ :=
  c.astronomical_calculator.utc_sunset c.adjusted_date c.geo_location zenith false

/-- `AstronomicalCalendar.sunrise`. -/
def AstronomicalCalendar.sunrise (c : AstronomicalCalendar) : Option ℚ :=
  c.date_time_from_time_of_day (c.utc_sunrise GEOMETRIC_ZENITH) SunMode.sunrise

/-- `AstronomicalCalendar.sunrise_offset_by_degrees`. -/
def AstronomicalCalendar.sunrise_offset_by_degrees (c : AstronomicalCalendar)
    (offset_zenith : ℚ) : Option ℚ :=
  c.date_time_from_time_of_day (c.utc_sea_level_sunrise offset_zenith) SunMode.sunrise

/-- `AstronomicalCalendar.sea_level_sunrise`. -/
def AstronomicalCalendar.sea_level_sunrise (c : AstronomicalCalendar) : Option ℚ :=
  c.sunrise_offset_by_degrees GEOMETRIC_ZENITH

/-- `AstronomicalCalendar.sunset`. -/
def AstronomicalCalendar.sunset (c : AstronomicalCalendar) : Option ℚ :=
  c.date_time_from_time_of_day (c.utc_sunset GEOMETRIC_ZENITH) SunMode.sunset

/-- `AstronomicalCalendar.sunset_offset_by_degrees`. -/
def AstronomicalCalendar.sunset_offset_by_degrees (c : AstronomicalCalendar)
    (offset_zenith : ℚ) : Option ℚ :=
  c.date_time_from_time_of_day (c.utc_sea_level_sunset offset_zenith) SunMode.sunset

/-- `AstronomicalCalendar.sea_level_sunset`. -/
def AstronomicalCalendar.sea_level_sunset (c : AstronomicalCalendar) : Option ℚ :=
  c.sunset_offset_by_degrees GEOMETRIC_ZENITH

/-- An argument of `temporal_hour`: either not supplied (the private
`__sentinel` class attribute serves as the default value, detected by the
`== self.__sentinel` checks on lines 59/61) or supplied explicitly as a
datetime-or-`None`. -/
inductive DatetimeArg
  | sentinel
  | value (v : Option ℚ)

/-- Resolution of a `temporal_hour` argument against its computed default
(lines 59-62 of the source). -/
def DatetimeArg.resolve (a : DatetimeArg) (dflt : Option ℚ) : Option ℚ :=
  match a with
  | .sentinel => dflt
  | .value v => v

/-- `AstronomicalCalendar.temporal_hour(sunrise, sunset)` with both
arguments made explicit. -/
def AstronomicalCalendar.temporal_hour_with (c : AstronomicalCalendar)
    (sunrise sunset : DatetimeArg) : Option ℚ :=
  let sr := sunrise.resolve c.sea_level_sunrise
  let ss := sunset.resolve c.sea_level_sunset
  match sr, ss with
  | some r, some s => some ((s - r) / 3600 / 12 * HOUR_MILLIS)
  | _, _ => none

/-- `AstronomicalCalendar.temporal_hour()` — both arguments left at their
sentinel defaults. -/
def AstronomicalCalendar.temporal_hour (c : AstronomicalCalendar) : Option ℚ :=
  c.temporal_hour_with .sentinel .sentinel

/-- `AstronomicalCalendar.sun_transit`:
`sunrise + timedelta((temporal_hour(sunrise, sunset) / HOUR_MILLIS * 6.0) / 24.0)`
(a `timedelta` whose first positional argument is days, i.e.
`days * 86400` seconds). -/
def AstronomicalCalendar.sun_transit (c : AstronomicalCalendar) : Option ℚ :=
  match c.sea_level_sunrise, c.sea_level_sunset with
  | some sunrise, some sunset =>
    match c.temporal_hour_with (.value (some sunrise)) (.value (some sunset)) with
    | some th => some (sunrise + (th / HOUR_MILLIS * 6 / 24) * 86400)
    | none => none
  | _, _ => none

/-!
Embedding of `zmanim/hebrew_calendar/hebrew_date_formatter.py`.

The holiday tables are transcribed character-for-character.  Note that in
the Python source the `HEBREW_HOLIDAYS` literal has no comma between the
entries for Shushan Purim Katan and Rosh Chodesh (line 34), so Python's
adjacent-string-literal concatenation fuses them into a single element;
the transcription below reproduces that fused element.
-/

/-- `HebrewDateFormatter.GERESH` — the ASCII apostrophe, `chr 39`. -/
def GERESH : String := String.singleton (Char.ofNat 39)

/-- `HebrewDateFormatter.GERSHAYIM` — the ASCII double quote, `chr 34`. -/
def GERSHAYIM : String := String.singleton (Char.ofNat 34)

/-- `HebrewDateFormatter.HEBREW_HOLIDAYS`, exactly as the Python list
literal evaluates (34 elements; element 29 is the fused string produced
by the missing comma in the source). -/
def HEBREW_HOLIDAYS : List String := [
  "", "ערב פסח", "פסח", "חול המועד פסח", "פסח שני", "ערב שבועות",
  "שבועות", "שבעה עשר בתמוז", "תשעה באב", "ט״ו באב", "ערב ראש השנה",
  "ראש השנה", "צום גדליה", "ערב יום כיפור", "יום כיפור",
  "ערב סוכות", "סוכות", "חול המועד סוכות", "הושענא רבה",
  "שמיני עצרת", "שמחת תורה", "ערב חנוכה", "חנוכה", "עשרה בטבת",
  "ט״ו בשבט", "תענית אסתר", "פורים", "פורים שושן", "פורים קטן",
  "שושן פורים קטןראש חודש", "יום השואה", "יום הזיכרון",
  "יום העצמאות", "יום ירושלים"]

/-- `HebrewDateFormatter.TRANSLITERATED_HOLIDAYS` (35 elements). -/
def TRANSLITERATED_HOLIDAYS : List String := [
  "", "Erev Pesach", "Pesach", "Chol Hamoed Pesach", "Pesach Sheni",
  "Erev Shavuos", "Shavuos", "Seventeenth of Tammuz",
  "Tishah B" ++ GERESH ++ "Av",
  "Tu B" ++ GERESH ++ "Av", "Erev Rosh Hashana", "Rosh Hashana",
  "Fast of Gedalyah",
  "Erev Yom Kippur", "Yom Kippur", "Erev Succos", "Succos",
  "Chol Hamoed Succos", "Hoshana Rabbah", "Shemini Atzeres",
  "Simchas Torah", "Erev Chanukah", "Chanukah", "Tenth of Teves",
  "Tu B" ++ GERESH ++ "Shvat", "Fast of Esther", "Purim", "Shushan Purim",
  "Purim Katan", "Shushan Purim Katan", "Rosh Chodesh", "Yom HaShoah",
  "Yom Hazikaron", "Yom Ha" ++ GERESH ++ "atzmaut", "Yom Yerushalayim"]

/-- Local constant `ALAFIM` of `format_hebrew_number`. -/
def ALAFIM : String := "אלפים"

/-- Local constant `EFES` of `format_hebrew_number`. -/
def EFES : String := "אפס"

/-- Local constant `HUNDREDS` of `format_hebrew_number`. -/
def HUNDREDS : List String :=
  ["", "ק", "ר", "ש", "ת", "תק", "תר", "תש", "תת", "תתק"]

/-- Local constant `TENS` of `format_hebrew_number`. -/
def TENS : List String :=
  ["", "י", "כ", "ל", "מ", "נ", "ס", "ע", "פ", "צ"]

/-- Local constant `TEN_ENDS` of `format_hebrew_number`. -/
def TEN_ENDS : List String :=
  ["", "י", "ך", "ל", "ם", "ן", "ס", "ע", "ף", "ץ"]

/-- Local constant `TAV_TAZ` of `format_hebrew_number`. -/
def TAV_TAZ : List String := ["טו", "טז"]

/-- Local constant `ONES` of `format_hebrew_number`. -/
def ONES : List String :=
  ["", "א", "ב", "ג", "ד", "ה", "ו", "ז", "ח", "ט"]

/-- The `HebrewDateFormatter` settings read by `format_hebrew_number`
(set to `True` in `__init__` unless overridden by constructor kwargs). -/
structure HebrewDateFormatter where
  hebrew_format : Bool
  use_long_hebrew_years : Bool
  use_geresh_gershayim : Bool
deriving DecidableEq

/-- Python `string_number[:-1] + q + string_number[-1:]`: insert `q`
before the last character (lines 169-170 of the source). -/
def insert_before_last (s q : String) : String :=
  s.dropRight 1 ++ q ++ s.takeRight 1

/-- The body of `HebrewDateFormatter.format_hebrew_number` after the range
and zero checks, on a number in `1..9999` (Python `//` and `%` on
non-negative ints are `Nat` division and modulus). -/
def format_hebrew_number_pos (f : HebrewDateFormatter) (number : ℕ) : String :=
  let short_number := number % 1000
  let single_digit_number : Bool :=
    decide (short_number < 11) ||
      (decide (short_number < 100) && decide (short_number % 10 = 0)) ||
      (decide (short_number ≤ 400) && decide (short_number % 100 = 0))
  let thousands := number / 1000
  if number % 1000 = 0 then
    ONES.getD thousands "" ++ (if f.use_geresh_gershayim then GERESH else "")
      ++ " " ++ ALAFIM
  else
    let s0 : String :=
      if f.use_long_hebrew_years && decide (1000 ≤ number) then
        ONES.getD thousands "" ++ (if f.use_geresh_gershayim then GERESH else "") ++ " "
      else ""
    let n1 := number % 1000
    let hundreds := n1 / 100
    let s1 := s0 ++ HUNDREDS.getD hundreds ""
    let n2 := n1 % 100
    let s2 : String :=
      if n2 = 15 then s1 ++ TAV_TAZ.getD 0 ""
      else if n2 = 16 then s1 ++ TAV_TAZ.getD 1 ""
      else
        let tens := n2 / 10
        if n2 % 10 = 0 then
          if single_digit_number = false then s1 ++ TEN_ENDS.getD tens ""
          else s1 ++ TENS.getD tens ""
        else s1 ++ TENS.getD tens "" ++ ONES.getD (n2 % 10) ""
    if f.use_geresh_gershayim then
      if single_digit_number then s2 ++ GERESH
      else insert_before_last s2 GERSHAYIM
    else s2

/-- `HebrewDateFormatter.format_hebrew_number`: raises `ValueError`
(modelled as `Except.error` carrying the message) for numbers outside
`0..9999`, returns `EFES` for `0`, and otherwise formats via
`format_hebrew_number_pos`. -/
def format_hebrew_number (f : HebrewDateFormatter) (number : ℤ) : Except String String :=
  if number < 0 then
    Except.error ("negative numbers can" ++ GERESH ++ "t be formatted")
  else if 9999 < number then
    Except.error "numbers > 9999 can not be formatted"
  else if number = 0 then
    Except.ok EFES
  else
    Except.ok (format_hebrew_number_pos f number.toNat)

/-!
Concrete instances used by the theorems below (solver stubs, locations and
calendars for witnesses and counterexamples).
-/

/-- A calendar with the location's elevation replaced by `e`, everything
else unchanged. -/
def AstronomicalCalendar.with_elevation (c : AstronomicalCalendar) (e : ℚ) : AstronomicalCalendar :=
  ⟨c.geo_location.with_elevation e, c.date, c.astronomical_calculator⟩

/-- A location in the UTC timezone: zero local-mean-time offset, zero
standard-time offset, zero antimeridian adjustment, zero elevation. -/
def gmt_geo : GeoLocation := ⟨0, 0, 0, 0⟩

/-- Proleptic Gregorian ordinal of 2024-03-20 (`date(2024, 3, 20).toordinal()`). -/
def mar_20_2024 : ℤ := 738965

/-- Stub solver for the equinox scenario: fractional UTC hour 6.0 for
sunrise and 18.0 for sunset, for every query. -/
def equinox_calculator : AstronomicalCalculations :=
  ⟨fun _ _ _ _ => some 6, fun _ _ _ _ => some 18⟩

/-- The equinox scenario calendar of the spec: UTC-timezone zero-offset
location, date 2024-03-20, equinox stub solver. -/
def equinox_calendar : AstronomicalCalendar := ⟨gmt_geo, mar_20_2024, equinox_calculator⟩

/-- Location with a fractional total offset: zero mean-time offset and a
standard-time offset of +45 minutes (2700000 ms = 0.75 h). -/
def fractional_offset_geo : GeoLocation := ⟨0, 2700000, 0, 0⟩

/-- Calendar used to separate the fractional hour `h` from its integer
part in the day-boundary test: fractional-offset location, date ordinal 0,
stub solver answering 17.5 for both events. -/
def fractional_offset_calendar : AstronomicalCalendar :=
  ⟨fractional_offset_geo, 0, ⟨fun _ _ _ _ => some (35 / 2), fun _ _ _ _ => some (35 / 2)⟩⟩

/-- Location at UTC+13 standard offset with zero mean-time offset (the
day-boundary example of the spec). -/
def plus13_geo : GeoLocation := ⟨0, 46800000, 0, 0⟩

/-- Calendar at the +13 location whose solver answers 23.5 for both
events. -/
def plus13_calendar : AstronomicalCalendar :=
  ⟨plus13_geo, 0, ⟨fun _ _ _ _ => some (47 / 2), fun _ _ _ _ => some (47 / 2)⟩⟩

/-- Polar-summer stub: sunrise present (3.0), sunset absent. -/
def polar_summer_calendar : AstronomicalCalendar :=
  ⟨gmt_geo, 0, ⟨fun _ _ _ _ => some 3, fun _ _ _ _ => none⟩⟩

/-- Polar-winter stub: sunrise absent, sunset present (21.0). -/
def polar_winter_calendar : AstronomicalCalendar :=
  ⟨gmt_geo, 0, ⟨fun _ _ _ _ => none, fun _ _ _ _ => some 21⟩⟩

/-- Calendar whose stub solver answers constants (7.0 / 19.0) for every
query and therefore ignores elevation; the location has nonzero offsets
and elevation 250. -/
def elevation_blind_calendar : AstronomicalCalendar :=
  ⟨⟨1800000, 3600000, 0, 250⟩, 5, ⟨fun _ _ _ _ => some 7, fun _ _ _ _ => some 19⟩⟩

/-- The string shape `format_hebrew_number` must produce on numbers whose
last two decimal digits are 15 or 16: the (optional) long-years thousands
prefix, the hundreds letter, then the letter tet followed by vav
(resp. zayin) with the gershayim mark between the two letters when
`use_geresh_gershayim` is set — and in particular not the regular
tens-letter/ones-letter composition. Here `p ++ q` is the special form
(`p` = tet, `q` = vav or zayin). -/
def expected_tet_form (f : HebrewDateFormatter) (m : ℕ) (p q : String) : String :=
  (if f.use_long_hebrew_years && decide (1000 ≤ m) then
      ONES.getD (m / 1000) "" ++ (if f.use_geresh_gershayim then GERESH else "") ++ " "
    else "")
  ++ HUNDREDS.getD (m % 1000 / 100) ""
  ++ (if f.use_geresh_gershayim then p ++ GERSHAYIM ++ q else p ++ q)

/-- Equality of formatter results (needed to evaluate them by `decide`). -/
instance : DecidableEq (Except String String) := fun x y =>
  match x, y with
  | .error a, .error b =>
    if h : a = b then isTrue (by rw [h]) else isFalse (fun hc => by cases hc; exact h rfl)
  | .error _, .ok _ => isFalse (fun hc => by cases hc)
  | .ok _, .error _ => isFalse (fun hc => by cases hc)
  | .ok a, .ok b =>
    if h : a = b then isTrue (by rw [h]) else isFalse (fun hc => by cases hc; exact h rfl)

/-!
## Theorems

One theorem per claim, each preceded by its statement in natural
language.
-/

/-- C8: every solver invocation — by `utc_sunrise(z)`, `utc_sunset(z)`,
`utc_sea_level_sunrise(z)`, `utc_sea_level_sunset(z)` — receives as its
date argument the adjusted date (the bound calendar date plus the
location's antimeridian adjustment in days), passes the zenith `z`
through unchanged, sets the elevation-adjustment flag to `true` for
`utc_sunrise`/`utc_sunset` and `false` for the sea-level variants, and
returns the solver's result (present or absent) unmodified. -/
theorem utc_solver_delegation (c : AstronomicalCalendar) (z : ℚ) :
    c.utc_sunrise z = c.astronomical_calculator.utc_sunrise
      (c.date + c.geo_location.antimeridian_adjustment) c.geo_location z true ∧
    c.utc_sunset z = c.astronomical_calculator.utc_sunset
      (c.date + c.geo_location.antimeridian_adjustment) c.geo_location z true ∧
    c.utc_sea_level_sunrise z = c.astronomical_calculator.utc_sunrise
      (c.date + c.geo_location.antimeridian_adjustment) c.geo_location z false ∧
    c.utc_sea_level_sunset z = c.astronomical_calculator.utc_sunset
      (c.date + c.geo_location.antimeridian_adjustment) c.geo_location z false :=
  ⟨rfl, rfl, rfl, rfl⟩

/-- C2: for the equinox stub solver (sunrise 6.0, sunset 18.0 at zenith
90) bound to a UTC-timezone zero-offset location on 2024-03-20:
`sunrise()` is 2024-03-20T06:00:00+00:00, `sunset()` is
2024-03-20T18:00:00+00:00, `temporal_hour()` is exactly `HOUR_MILLIS`,
and `sun_transit()` is 2024-03-20T12:00:00+00:00 (instants are expressed
as ordinal-day times 86400 plus seconds of day). -/
theorem equinox_symmetry :
    equinox_calendar.sunrise = some ((mar_20_2024 : ℚ) * 86400 + 6 * 3600) ∧
    equinox_calendar.sunset = some ((mar_20_2024 : ℚ) * 86400 + 18 * 3600) ∧
    equinox_calendar.temporal_hour = some HOUR_MILLIS ∧
    equinox_calendar.sun_transit = some ((mar_20_2024 : ℚ) * 86400 + 12 * 3600) := by
  refine ⟨?_, ?_, ?_, ?_⟩ <;>
    norm_num [AstronomicalCalendar.sunrise, AstronomicalCalendar.sunset,
      AstronomicalCalendar.temporal_hour, AstronomicalCalendar.sun_transit,
      AstronomicalCalendar.temporal_hour_with, DatetimeArg.resolve,
      AstronomicalCalendar.sea_level_sunrise, AstronomicalCalendar.sea_level_sunset,
      AstronomicalCalendar.sunrise_offset_by_degrees, AstronomicalCalendar.sunset_offset_by_degrees,
      AstronomicalCalendar.utc_sunrise, AstronomicalCalendar.utc_sunset,
      AstronomicalCalendar.utc_sea_level_sunrise, AstronomicalCalendar.utc_sea_level_sunset,
      AstronomicalCalendar.date_time_from_time_of_day, AstronomicalCalendar.base_utc_instant,
      AstronomicalCalendar.adjusted_date, AstronomicalCalendar.convert_date_time_for_zone,
      AstronomicalCalendar.local_offset, reconstructed_time_of_day, pyDivmod,
      equinox_calendar, equinox_calculator, gmt_geo, mar_20_2024,
      HOUR_MILLIS, GEOMETRIC_ZENITH]

/-- C9 (the claim fails on the code): the holiday tables are not parallel
arrays.  `HEBREW_HOLIDAYS` has 34 elements while `TRANSLITERATED_HOLIDAYS`
has 35: the missing comma on line 34 of the source fuses the entries for
Shushan Purim Katan and Rosh Chodesh into the single element at index 29,
so from index 30 on the Hebrew entries denote the wrong holiday (index 30,
Rosh Chodesh in the transliterated table, is Yom HaShoah in the Hebrew
one) and index 34 is out of bounds for the Hebrew table. -/
theorem holiday_tables_not_parallel :
    HEBREW_HOLIDAYS.length = 34 ∧
    TRANSLITERATED_HOLIDAYS.length = 35 ∧
    HEBREW_HOLIDAYS[29]? = some ("שושן פורים קטן" ++ "ראש חודש") ∧
    TRANSLITERATED_HOLIDAYS[30]? = some "Rosh Chodesh" ∧
    HEBREW_HOLIDAYS[30]? = some "יום השואה" ∧
    HEBREW_HOLIDAYS[34]? = none := by
  refine ⟨rfl, rfl, ?_, rfl, rfl, rfl⟩
  rfl

/-- C3: absence is absorbing.  If the solver reports the sea-level sunset
(zenith 90, elevation flag false) absent, then `sea_level_sunset()`,
`temporal_hour()` and `sun_transit()` are all absent; symmetrically for an
absent sea-level sunrise — regardless of whether the other event is
present.  (No operation can raise for a non-occurring event: every
operation of the embedding is total and returns an `Option`.) -/
theorem absence_absorbing (c : AstronomicalCalendar) :
    (c.astronomical_calculator.utc_sunset c.adjusted_date c.geo_location GEOMETRIC_ZENITH false
        = none →
      c.sea_level_sunset = none ∧ c.temporal_hour = none ∧ c.sun_transit = none) ∧
    (c.astronomical_calculator.utc_sunrise c.adjusted_date c.geo_location GEOMETRIC_ZENITH false
        = none →
      c.sea_level_sunrise = none ∧ c.temporal_hour = none ∧ c.sun_transit = none) := by
  constructor
  · intro h
    have hss : c.sea_level_sunset = none := by
      simp [AstronomicalCalendar.sea_level_sunset, AstronomicalCalendar.sunset_offset_by_degrees,
        AstronomicalCalendar.utc_sea_level_sunset, AstronomicalCalendar.date_time_from_time_of_day, h]
    refine ⟨hss, ?_, ?_⟩
    · cases hsr : c.sea_level_sunrise <;>
        simp [AstronomicalCalendar.temporal_hour, AstronomicalCalendar.temporal_hour_with,
          DatetimeArg.resolve, hss, hsr]
    · cases hsr : c.sea_level_sunrise <;>
        simp [AstronomicalCalendar.sun_transit, hss, hsr]
  · intro h
    have hsr : c.sea_level_sunrise = none := by
      simp [AstronomicalCalendar.sea_level_sunrise, AstronomicalCalendar.sunrise_offset_by_degrees,
        AstronomicalCalendar.utc_sea_level_sunrise, AstronomicalCalendar.date_time_from_time_of_day, h]
    refine ⟨hsr, ?_, ?_⟩
    · cases hss : c.sea_level_sunset <;>
        simp [AstronomicalCalendar.temporal_hour, AstronomicalCalendar.temporal_hour_with,
          DatetimeArg.resolve, hsr, hss]
    · cases hss : c.sea_level_sunset <;>
        simp [AstronomicalCalendar.sun_transit, hsr, hss]

/-- Witness for C3: for the polar-summer stub (sunrise 3.0, sunset
absent) everything downstream of sunset is absent, and for the
polar-winter stub (sunrise absent, sunset 21.0) everything downstream of
sunrise is absent. -/
theorem absence_absorbing_witness :
    (polar_summer_calendar.sea_level_sunset = none ∧
      polar_summer_calendar.temporal_hour = none ∧
      polar_summer_calendar.sun_transit = none) ∧
    (polar_winter_calendar.sea_level_sunrise = none ∧
      polar_winter_calendar.temporal_hour = none ∧
      polar_winter_calendar.sun_transit = none) :=
  ⟨(absence_absorbing polar_summer_calendar).1 rfl,
   (absence_absorbing polar_winter_calendar).2 rfl⟩

/-- C4: `temporal_hour` distinguishes unsupplied arguments from
explicitly absent ones.  `temporal_hour()` with no arguments equals
`temporal_hour(sea_level_sunrise(), sea_level_sunset())`; and whenever
`sea_level_sunset()` (resp. `sea_level_sunrise()`) is present, calling
`temporal_hour` with an explicitly absent sunset (resp. sunrise) still
returns absent. -/
theorem temporal_hour_default_vs_explicit (c : AstronomicalCalendar) :
    c.temporal_hour
      = c.temporal_hour_with (.value c.sea_level_sunrise) (.value c.sea_level_sunset) ∧
    (∀ v, c.sea_level_sunset = some v →
      c.temporal_hour_with .sentinel (.value none) = none) ∧
    (∀ v, c.sea_level_sunrise = some v →
      c.temporal_hour_with (.value none) .sentinel = none) := by
  refine ⟨rfl, ?_, ?_⟩
  · intro v _
    cases hsr : c.sea_level_sunrise <;>
      simp [AstronomicalCalendar.temporal_hour_with, DatetimeArg.resolve, hsr]
  · intro v _
    cases hss : c.sea_level_sunset <;>
      simp [AstronomicalCalendar.temporal_hour_with, DatetimeArg.resolve, hss]

/-- Witness for C4, on the equinox calendar (whose sea-level sunrise and
sunset are both present): an explicitly absent sunset (resp. sunrise)
yields an absent temporal hour even though the defaults are present. -/
theorem temporal_hour_default_vs_explicit_witness :
    equinox_calendar.temporal_hour_with .sentinel (.value none) = none ∧
    equinox_calendar.temporal_hour_with (.value none) .sentinel = none :=
  ⟨(temporal_hour_default_vs_explicit equinox_calendar).2.1
      ((mar_20_2024 : ℚ) * 86400 + 18 * 3600)
      (by norm_num [AstronomicalCalendar.sea_level_sunset,
        AstronomicalCalendar.sunset_offset_by_degrees,
        AstronomicalCalendar.utc_sea_level_sunset,
        AstronomicalCalendar.date_time_from_time_of_day, AstronomicalCalendar.base_utc_instant,
        AstronomicalCalendar.adjusted_date, AstronomicalCalendar.convert_date_time_for_zone,
        AstronomicalCalendar.local_offset, reconstructed_time_of_day, pyDivmod,
        equinox_calendar, equinox_calculator, gmt_geo, mar_20_2024,
        HOUR_MILLIS, GEOMETRIC_ZENITH]),
   (temporal_hour_default_vs_explicit equinox_calendar).2.2
      ((mar_20_2024 : ℚ) * 86400 + 6 * 3600)
      (by norm_num [AstronomicalCalendar.sea_level_sunrise,
        AstronomicalCalendar.sunrise_offset_by_degrees,
        AstronomicalCalendar.utc_sea_level_sunrise,
        AstronomicalCalendar.date_time_from_time_of_day, AstronomicalCalendar.base_utc_instant,
        AstronomicalCalendar.adjusted_date, AstronomicalCalendar.convert_date_time_for_zone,
        AstronomicalCalendar.local_offset, reconstructed_time_of_day, pyDivmod,
        equinox_calendar, equinox_calculator, gmt_geo, mar_20_2024,
        HOUR_MILLIS, GEOMETRIC_ZENITH])⟩

/-- C6: for every pair of present resolved sunrise and sunset instants,
`temporal_hour` returns exactly `((sunset − sunrise) in hours / 12) ×
HOUR_MILLIS` (one twelfth of the daylight interval in milliseconds), and
returns absent when the resolved sunrise or sunset is absent. -/
theorem temporal_hour_formula (c : AstronomicalCalendar) (a b : DatetimeArg) :
    (∀ r s, a.resolve c.sea_level_sunrise = some r →
      b.resolve c.sea_level_sunset = some s →
      c.temporal_hour_with a b = some ((s - r) / 3600 / 12 * HOUR_MILLIS)) ∧
    (a.resolve c.sea_level_sunrise = none ∨ b.resolve c.sea_level_sunset = none →
      c.temporal_hour_with a b = none) := by
  constructor
  · intro r s hr hs
    simp [AstronomicalCalendar.temporal_hour_with, hr, hs]
  · rintro (h | h)
    · simp [AstronomicalCalendar.temporal_hour_with, h]
    · cases hr : a.resolve c.sea_level_sunrise <;>
        simp [AstronomicalCalendar.temporal_hour_with, h, hr]

/-- Witness for C6: explicit instants sunrise 0 and sunset 43200 (12 h of
daylight) give exactly `12 / 12 × HOUR_MILLIS`; an explicitly absent
sunrise gives absent. -/
theorem temporal_hour_formula_witness :
    equinox_calendar.temporal_hour_with (.value (some 0)) (.value (some 43200))
      = some ((43200 - 0) / 3600 / 12 * HOUR_MILLIS) ∧
    equinox_calendar.temporal_hour_with (.value none) (.value (some 43200)) = none :=
  ⟨(temporal_hour_formula equinox_calendar (.value (some 0)) (.value (some 43200))).1
      0 43200 rfl rfl,
   (temporal_hour_formula equinox_calendar (.value none) (.value (some 43200))).2
      (Or.inl rfl)⟩

/-- C5: when both sea-level bounds are present, `sun_transit()` equals
`sea_level_sunrise()` plus six temporal hours — `6 × temporal_hour() /
HOUR_MILLIS` hours, expressed as a fraction of a day (here converted to
seconds: `x` hours is `x / 24` of a day, i.e. `x / 24 × 86400` s); when
either bound is absent, `sun_transit()` is absent. -/
theorem sun_transit_six_temporal_hours (c : AstronomicalCalendar) :
    (∀ r s th, c.sea_level_sunrise = some r → c.sea_level_sunset = some s →
      c.temporal_hour = some th →
      c.sun_transit = some (r + 6 * (th / HOUR_MILLIS) / 24 * 86400)) ∧
    ((c.sea_level_sunrise = none ∨ c.sea_level_sunset = none) → c.sun_transit = none) := by
  constructor
  · intro r s th hr hs hth
    have hth2 : c.temporal_hour = some ((s - r) / 3600 / 12 * HOUR_MILLIS) := by
      simp [AstronomicalCalendar.temporal_hour, AstronomicalCalendar.temporal_hour_with,
        DatetimeArg.resolve, hr, hs]
    rw [hth2] at hth
    have hth3 : th = (s - r) / 3600 / 12 * HOUR_MILLIS := (Option.some_inj.mp hth).symm
    subst hth3
    simp only [AstronomicalCalendar.sun_transit, hr, hs,
      AstronomicalCalendar.temporal_hour_with, DatetimeArg.resolve]
    rw [Option.some_inj]
    rw [HOUR_MILLIS]
    ring
  · rintro (h | h)
    · simp [AstronomicalCalendar.sun_transit, h]
    · cases hr : c.sea_level_sunrise <;> simp [AstronomicalCalendar.sun_transit, h, hr]

/-- Witness for C5, on the equinox calendar: sunrise 06:00, sunset 18:00,
temporal hour `HOUR_MILLIS`, so the transit is sunrise plus six standard
hours, 12:00. -/
theorem sun_transit_six_temporal_hours_witness :
    equinox_calendar.sun_transit
      = some (((mar_20_2024 : ℚ) * 86400 + 6 * 3600)
          + 6 * (HOUR_MILLIS / HOUR_MILLIS) / 24 * 86400) :=
  (sun_transit_six_temporal_hours equinox_calendar).1
    ((mar_20_2024 : ℚ) * 86400 + 6 * 3600) ((mar_20_2024 : ℚ) * 86400 + 18 * 3600) HOUR_MILLIS
    (by norm_num [AstronomicalCalendar.sea_level_sunrise,
      AstronomicalCalendar.sunrise_offset_by_degrees, AstronomicalCalendar.utc_sea_level_sunrise,
      AstronomicalCalendar.date_time_from_time_of_day, AstronomicalCalendar.base_utc_instant,
      AstronomicalCalendar.adjusted_date, AstronomicalCalendar.convert_date_time_for_zone,
      AstronomicalCalendar.local_offset, reconstructed_time_of_day, pyDivmod,
      equinox_calendar, equinox_calculator, gmt_geo, mar_20_2024, HOUR_MILLIS, GEOMETRIC_ZENITH])
    (by norm_num [AstronomicalCalendar.sea_level_sunset,
      AstronomicalCalendar.sunset_offset_by_degrees, AstronomicalCalendar.utc_sea_level_sunset,
      AstronomicalCalendar.date_time_from_time_of_day, AstronomicalCalendar.base_utc_instant,
      AstronomicalCalendar.adjusted_date, AstronomicalCalendar.convert_date_time_for_zone,
      AstronomicalCalendar.local_offset, reconstructed_time_of_day, pyDivmod,
      equinox_calendar, equinox_calculator, gmt_geo, mar_20_2024, HOUR_MILLIS, GEOMETRIC_ZENITH])
    (by norm_num [AstronomicalCalendar.temporal_hour, AstronomicalCalendar.temporal_hour_with,
      DatetimeArg.resolve, AstronomicalCalendar.sea_level_sunrise,
      AstronomicalCalendar.sea_level_sunset, AstronomicalCalendar.sunrise_offset_by_degrees,
      AstronomicalCalendar.sunset_offset_by_degrees, AstronomicalCalendar.utc_sea_level_sunrise,
      AstronomicalCalendar.utc_sea_level_sunset, AstronomicalCalendar.date_time_from_time_of_day,
      AstronomicalCalendar.base_utc_instant, AstronomicalCalendar.adjusted_date,
      AstronomicalCalendar.convert_date_time_for_zone, AstronomicalCalendar.local_offset,
      reconstructed_time_of_day, pyDivmod, equinox_calendar, equinox_calculator, gmt_geo,
      mar_20_2024, HOUR_MILLIS, GEOMETRIC_ZENITH])

/-- C7: `sea_level_sunrise()` equals `sunrise_offset_by_degrees(90)` and
`sea_level_sunset()` equals `sunset_offset_by_degrees(90)` exactly; the
sea-level and offset-by-degrees operations invoke the solver with the
elevation-adjustment flag `false`, and therefore (for a solver that, as
contracted, ignores the elevation field when that flag is `false` — the
two hypotheses) their results do not depend on the location's elevation
value. -/
theorem sea_level_elevation_invariance (c : AstronomicalCalendar) (e : ℚ)
    (hrise : ∀ d g z, c.astronomical_calculator.utc_sunrise d (g.with_elevation e) z false
        = c.astronomical_calculator.utc_sunrise d g z false)
    (hset : ∀ d g z, c.astronomical_calculator.utc_sunset d (g.with_elevation e) z false
        = c.astronomical_calculator.utc_sunset d g z false) :
    c.sea_level_sunrise = c.sunrise_offset_by_degrees 90 ∧
    c.sea_level_sunset = c.sunset_offset_by_degrees 90 ∧
    (∀ z, (c.with_elevation e).sunrise_offset_by_degrees z = c.sunrise_offset_by_degrees z) ∧
    (∀ z, (c.with_elevation e).sunset_offset_by_degrees z = c.sunset_offset_by_degrees z) ∧
    (c.with_elevation e).sea_level_sunrise = c.sea_level_sunrise ∧
    (c.with_elevation e).sea_level_sunset = c.sea_level_sunset ∧
    (∀ z, c.utc_sea_level_sunrise z
      = c.astronomical_calculator.utc_sunrise c.adjusted_date c.geo_location z false) ∧
    (∀ z, c.utc_sea_level_sunset z
      = c.astronomical_calculator.utc_sunset c.adjusted_date c.geo_location z false) := by
  have key_rise : ∀ z, (c.with_elevation e).utc_sea_level_sunrise z
      = c.utc_sea_level_sunrise z := fun z => hrise c.adjusted_date c.geo_location z
  have key_set : ∀ z, (c.with_elevation e).utc_sea_level_sunset z
      = c.utc_sea_level_sunset z := fun z => hset c.adjusted_date c.geo_location z
  have dt_eq : ∀ o m, (c.with_elevation e).date_time_from_time_of_day o m
      = c.date_time_from_time_of_day o m := fun o m => rfl
  have rise_inv : ∀ z, (c.with_elevation e).sunrise_offset_by_degrees z
      = c.sunrise_offset_by_degrees z := by
    intro z
    show (c.with_elevation e).date_time_from_time_of_day
        ((c.with_elevation e).utc_sea_level_sunrise z) SunMode.sunrise
      = c.date_time_from_time_of_day (c.utc_sea_level_sunrise z) SunMode.sunrise
    rw [key_rise z, dt_eq]
  have set_inv : ∀ z, (c.with_elevation e).sunset_offset_by_degrees z
      = c.sunset_offset_by_degrees z := by
    intro z
    show (c.with_elevation e).date_time_from_time_of_day
        ((c.with_elevation e).utc_sea_level_sunset z) SunMode.sunset
      = c.date_time_from_time_of_day (c.utc_sea_level_sunset z) SunMode.sunset
    rw [key_set z, dt_eq]
  exact ⟨rfl, rfl, rise_inv, set_inv, rise_inv GEOMETRIC_ZENITH, set_inv GEOMETRIC_ZENITH,
    fun z => rfl, fun z => rfl⟩

/-- Witness for C7: for the constant (hence elevation-blind) stub solver,
replacing the location's elevation 250 by 9999 changes neither sea-level
result. -/
theorem sea_level_elevation_invariance_witness :
    (elevation_blind_calendar.with_elevation 9999).sea_level_sunrise
        = elevation_blind_calendar.sea_level_sunrise ∧
    (elevation_blind_calendar.with_elevation 9999).sea_level_sunset
        = elevation_blind_calendar.sea_level_sunset :=
  ⟨(sea_level_elevation_invariance elevation_blind_calendar 9999
      (fun _ _ _ => rfl) (fun _ _ _ => rfl)).2.2.2.2.1,
   (sea_level_elevation_invariance elevation_blind_calendar 9999
      (fun _ _ _ => rfl) (fun _ _ _ => rfl)).2.2.2.2.2.1⟩

/-- C1 fails on the code at a fractional hour: with total local offset
0.75 h (45-minute standard offset) and present fractional UTC hour
h = 17.5 in sunrise mode, h + local_offset_hours = 18.25 > 18, so the
claim requires the constructed UTC date-time to have one day subtracted;
but the routine compares the divmod integer hour part (17 + 0.75 =
17.75 ≤ 18) and keeps the adjusted date: the result is the uncorrected
base instant 63000 s (= day 0 at 17:30:00 UTC), not 63000 − 86400. -/
theorem date_boundary_fractional_hour_counterexample :
    18 < (35 / 2 : ℚ) + fractional_offset_calendar.local_offset ∧
    fractional_offset_calendar.date_time_from_time_of_day (some (35 / 2)) SunMode.sunrise
      = some (fractional_offset_calendar.base_utc_instant (35 / 2)) ∧
    fractional_offset_calendar.base_utc_instant (35 / 2) = 63000 := by
  refine ⟨?_, ?_, ?_⟩ <;>
    norm_num [AstronomicalCalendar.date_time_from_time_of_day,
      AstronomicalCalendar.base_utc_instant, AstronomicalCalendar.adjusted_date,
      AstronomicalCalendar.convert_date_time_for_zone, AstronomicalCalendar.local_offset,
      reconstructed_time_of_day, pyDivmod, fractional_offset_calendar, fractional_offset_geo,
      HOUR_MILLIS]


/-- Helper: in sunrise mode the reconstruction returns the base instant
minus one day exactly when `⌊t⌋ + local_offset > 18`. -/
theorem dtft_sunrise_eq (c : AstronomicalCalendar) (t : ℚ) :
    c.date_time_from_time_of_day (some t) SunMode.sunrise
      = some (if 18 < (⌊t⌋ : ℚ) + c.local_offset then c.base_utc_instant t - 86400
          else c.base_utc_instant t) := by
  have hfl : (pyDivmod (t * 3600) 3600).1 = ⌊t⌋ := by
    unfold pyDivmod
    norm_num
  simp only [AstronomicalCalendar.date_time_from_time_of_day,
    AstronomicalCalendar.convert_date_time_for_zone, hfl]
  simp [gt_iff_lt]

/-- Helper: in sunset mode the reconstruction returns the base instant
plus one day exactly when `⌊t⌋ + local_offset < 6`. -/
theorem dtft_sunset_eq (c : AstronomicalCalendar) (t : ℚ) :
    c.date_time_from_time_of_day (some t) SunMode.sunset
      = some (if (⌊t⌋ : ℚ) + c.local_offset < 6 then c.base_utc_instant t + 86400
          else c.base_utc_instant t) := by
  have hfl : (pyDivmod (t * 3600) 3600).1 = ⌊t⌋ := by
    unfold pyDivmod
    norm_num
  simp only [AstronomicalCalendar.date_time_from_time_of_day,
    AstronomicalCalendar.convert_date_time_for_zone, hfl]
  simp [gt_iff_lt]

/-- C1 (amended): in the date/time reconstruction routine, for a present
fractional UTC hour `t ∈ [0, 24)`, the day-boundary test uses the integer
hour component `⌊t⌋` produced by `divmod`, not the full fractional hour:
in sunrise mode one day is subtracted exactly when
`⌊t⌋ + local_offset_hours > 18`, in sunset mode one day is added exactly
when `⌊t⌋ + local_offset_hours < 6`, and otherwise the adjusted date is
kept unchanged. -/
theorem date_boundary_correction_floor (c : AstronomicalCalendar) (t : ℚ)
    (h0 : 0 ≤ t) (h24 : t < 24) :
    (c.date_time_from_time_of_day (some t) SunMode.sunrise
        = some (c.base_utc_instant t - 86400) ↔ 18 < (⌊t⌋ : ℚ) + c.local_offset) ∧
    (c.date_time_from_time_of_day (some t) SunMode.sunrise
        = some (c.base_utc_instant t) ↔ ¬ 18 < (⌊t⌋ : ℚ) + c.local_offset) ∧
    (c.date_time_from_time_of_day (some t) SunMode.sunset
        = some (c.base_utc_instant t + 86400) ↔ (⌊t⌋ : ℚ) + c.local_offset < 6) ∧
    (c.date_time_from_time_of_day (some t) SunMode.sunset
        = some (c.base_utc_instant t) ↔ ¬ (⌊t⌋ : ℚ) + c.local_offset < 6) := by
  refine ⟨?_, ?_, ?_, ?_⟩
  · rw [dtft_sunrise_eq]
    by_cases hc : 18 < (⌊t⌋ : ℚ) + c.local_offset
    · rw [if_pos hc]
      exact ⟨fun _ => hc, fun _ => rfl⟩
    · rw [if_neg hc, Option.some_inj]
      exact iff_of_false (fun hEq => by linarith) hc
  · rw [dtft_sunrise_eq]
    by_cases hc : 18 < (⌊t⌋ : ℚ) + c.local_offset
    · rw [if_pos hc, Option.some_inj]
      exact iff_of_false (fun hEq => by linarith) (not_not_intro hc)
    · rw [if_neg hc]
      exact iff_of_true rfl hc
  · rw [dtft_sunset_eq]
    by_cases hc : (⌊t⌋ : ℚ) + c.local_offset < 6
    · rw [if_pos hc]
      exact ⟨fun _ => hc, fun _ => rfl⟩
    · rw [if_neg hc, Option.some_inj]
      exact iff_of_false (fun hEq => by linarith) hc
  · rw [dtft_sunset_eq]
    by_cases hc : (⌊t⌋ : ℚ) + c.local_offset < 6
    · rw [if_pos hc, Option.some_inj]
      exact iff_of_false (fun hEq => by linarith) (not_not_intro hc)
    · rw [if_neg hc]
      exact iff_of_true rfl hc

/-- Witness for C1 (amended), the spec's own day-boundary example: at a
UTC+13 standard offset with zero mean-time offset and a solver sunrise
value of 23.5 h, `⌊23.5⌋ + 13 = 36 > 18`, so one day is subtracted from
the constructed UTC date-time. -/
theorem date_boundary_correction_floor_witness :
    plus13_calendar.date_time_from_time_of_day (some (47 / 2)) SunMode.sunrise
      = some (plus13_calendar.base_utc_instant (47 / 2) - 86400) :=
  ((date_boundary_correction_floor plus13_calendar (47 / 2)
      (by norm_num) (by norm_num)).1).mpr
    (by norm_num [AstronomicalCalendar.local_offset, plus13_calendar, plus13_geo, HOUR_MILLIS])

/-- Helper for C10: on every number of the shape `1000a + 100b + 15`
(resp. `+ 16`) with `a, b < 10`, the formatter produces the tet-vav
(resp. tet-zayin) special form, for every combination of formatter
settings. -/
theorem tet_form_cases (f : HebrewDateFormatter) :
    ∀ (a b : Fin 10),
      format_hebrew_number f (1000 * (a : ℤ) + 100 * (b : ℤ) + 15)
        = Except.ok (expected_tet_form f (1000 * (a : ℕ) + 100 * (b : ℕ) + 15) "ט" "ו") ∧
      format_hebrew_number f (1000 * (a : ℤ) + 100 * (b : ℤ) + 16)
        = Except.ok (expected_tet_form f (1000 * (a : ℕ) + 100 * (b : ℕ) + 16) "ט" "ז") := by
  obtain ⟨f1, f2, f3⟩ := f
  cases f1 <;> cases f2 <;> cases f3 <;> decide

/-- C10: `format_hebrew_number(n)` raises `ValueError` exactly when
`n < 0` or `n > 9999`; every `n` in `0..9999` yields a string without
raising; `n = 0` yields the word for zero (`EFES`); and every in-range
`n` whose last two decimal digits are 15 (resp. 16) is rendered with the
tet-vav (resp. tet-zayin) special form — the letters ט and ו (resp. ז)
with the gershayim between them when enabled — rather than the regular
tens-and-ones composition. -/
theorem format_hebrew_number_range (f : HebrewDateFormatter) (n : ℤ) :
    ((∃ e, format_hebrew_number f n = Except.error e) ↔ (n < 0 ∨ 9999 < n)) ∧
    (n = 0 → format_hebrew_number f n = Except.ok EFES) ∧
    (0 ≤ n → n ≤ 9999 → n % 100 = 15 →
      format_hebrew_number f n = Except.ok (expected_tet_form f n.toNat "ט" "ו")) ∧
    (0 ≤ n → n ≤ 9999 → n % 100 = 16 →
      format_hebrew_number f n = Except.ok (expected_tet_form f n.toNat "ט" "ז")) := by
  refine ⟨?_, ?_, ?_, ?_⟩
  · unfold format_hebrew_number
    split_ifs with h1 h2 h3
    · exact iff_of_true ⟨_, rfl⟩ (Or.inl h1)
    · exact iff_of_true ⟨_, rfl⟩ (Or.inr h2)
    · constructor
      · rintro ⟨e, he⟩
        exact he.elim
      · rintro (h | h) <;> omega
    · constructor
      · rintro ⟨e, he⟩
        exact he.elim
      · rintro (h | h) <;> omega
  · intro h
    subst h
    simp [format_hebrew_number]
  · intro hn0 hn9 h15
    obtain ⟨m, rfl⟩ := Int.eq_ofNat_of_zero_le hn0
    have hm9 : m ≤ 9999 := by exact_mod_cast hn9
    have hm15 : m % 100 = 15 := by omega
    have ha : m / 1000 < 10 := by omega
    have hb : m % 1000 / 100 < 10 := by omega
    have key := (tet_form_cases f ⟨m / 1000, ha⟩ ⟨m % 1000 / 100, hb⟩).1
    have harg : (1000 * ((⟨m / 1000, ha⟩ : Fin 10) : ℤ)
        + 100 * ((⟨m % 1000 / 100, hb⟩ : Fin 10) : ℤ) + 15) = (m : ℤ) := by
      push_cast
      omega
    have hexp : 1000 * ((⟨m / 1000, ha⟩ : Fin 10) : ℕ)
        + 100 * ((⟨m % 1000 / 100, hb⟩ : Fin 10) : ℕ) + 15 = m := by
      simp only [Fin.val_mk]
      omega
    rw [harg, hexp] at key
    rw [Int.toNat_natCast]
    exact key
  · intro hn0 hn9 h16
    obtain ⟨m, rfl⟩ := Int.eq_ofNat_of_zero_le hn0
    have hm9 : m ≤ 9999 := by exact_mod_cast hn9
    have hm16 : m % 100 = 16 := by omega
    have ha : m / 1000 < 10 := by omega
    have hb : m % 1000 / 100 < 10 := by omega
    have key := (tet_form_cases f ⟨m / 1000, ha⟩ ⟨m % 1000 / 100, hb⟩).2
    have harg : (1000 * ((⟨m / 1000, ha⟩ : Fin 10) : ℤ)
        + 100 * ((⟨m % 1000 / 100, hb⟩ : Fin 10) : ℤ) + 16) = (m : ℤ) := by
      push_cast
      omega
    have hexp : 1000 * ((⟨m / 1000, ha⟩ : Fin 10) : ℕ)
        + 100 * ((⟨m % 1000 / 100, hb⟩ : Fin 10) : ℕ) + 16 = m := by
      simp only [Fin.val_mk]
      omega
    rw [harg, hexp] at key
    rw [Int.toNat_natCast]
    exact key

/-- Witness for C10: 5715 (whose last two digits are 15) renders with the
tet-vav form, 0 renders as `EFES`. -/
theorem format_hebrew_number_range_witness :
    format_hebrew_number ⟨true, true, true⟩ 5715
      = Except.ok (expected_tet_form ⟨true, true, true⟩ 5715 "ט" "ו") ∧
    format_hebrew_number ⟨true, true, true⟩ 0 = Except.ok EFES :=
  ⟨(format_hebrew_number_range ⟨true, true, true⟩ 5715).2.2.1
      (by decide) (by decide) (by decide),
   (format_hebrew_number_range ⟨true, true, true⟩ 0).2.1 rfl⟩
